import Mathlib

/-!
Verification of the outbound AI-request client of the HealthAI backend
(`app.py`, function `get_granite_response`).

The embedding models:
* JSON values and a JSON parser (`parseJson`), standing for Python's
  `json` module as used by `response.json()`;
* the dynamic semantics of the Python operations applied to the parsed
  response (`truthiness`, `in`, `len`, subscripting, `dict.get`), each of
  which can raise a `TypeError`/`KeyError`/`IndexError`/`AttributeError`
  that the source catches with its final bare `except Exception` arm;
* the transport outcome of `requests.post` (`HttpResult`): a timeout, a
  connection error, a response carrying a status code and a raw body
  string, or any other unexpected fault;
* the request that the source builds (URL, headers, payload, timeout);
* the function `get_granite_response` itself, returning the value the
  Python function returns (a string on every path except the happy path,
  where Python returns whatever `results[0].get("generated_text", ...)`
  evaluates to);
* the specification-level outcome abstraction `GenerationOutcome`
  (`Success`/`Failure{kind, detail}`) and a classification function
  `outcomeOf`, proved to refine `get_granite_response` via `render`.
-/

namespace HealthAI

/-- JSON values, as produced by Python's `json.loads`.  A number is kept
exactly as a decimal mantissa and a power-of-ten exponent (the value is
`mant * 10 ^ exp10`); an integer literal parses with exponent `0`. -/
inductive JsonValue where
  | null
  | bool (b : Bool)
  | num (mant : Int) (exp10 : Int := 0)
  | str (s : String)
  | arr (items : List JsonValue)
  | obj (fields : List (String × JsonValue))

/-- Dictionary lookup on the association list backing a JSON object. -/
def objLookup : List (String × JsonValue) → String → Option JsonValue
  | [], _ => none
  | (k, v) :: rest, key => if k = key then some v else objLookup rest key

/-- Dictionary insertion: overwrite an existing key in place, else append
(the duplicate-key behaviour of Python's `dict` while `json.loads` builds
an object). -/
def objInsert : List (String × JsonValue) → String → JsonValue → List (String × JsonValue)
  | [], k, v => [(k, v)]
  | (k0, v0) :: rest, k, v =>
      if k0 = k then (k0, v) :: rest else (k0, v0) :: objInsert rest k v

/-- JSON insignificant whitespace. -/
def isJsonWs (c : Char) : Bool :=
  c = ' ' || c = '\t' || c = '\n' || c = '\r'

/-- Drop leading JSON whitespace. -/
def skipWs : List Char → List Char
  | [] => []
  | c :: cs => if isJsonWs c then skipWs cs else c :: cs

/-- Value of a hexadecimal digit. -/
def hexVal (c : Char) : Option Nat :=
  if '0' ≤ c ∧ c ≤ '9' then some (c.toNat - '0'.toNat)
  else if 'a' ≤ c ∧ c ≤ 'f' then some (c.toNat - 'a'.toNat + 10)
  else if 'A' ≤ c ∧ c ≤ 'F' then some (c.toNat - 'A'.toNat + 10)
  else none

/-- Parse the body of a JSON string literal after the opening quote,
returning the decoded characters and the input remaining after the
closing quote.  Mirrors `json.loads` in strict mode: raw control
characters are rejected, the escapes are the eight JSON ones plus
`\uXXXX`. -/
def parseStrChars : List Char → Option (List Char × List Char)
  | [] => none
  | '"' :: rest => some ([], rest)
  | '\\' :: esc =>
    match esc with
    | '"' :: rest => (parseStrChars rest).map (fun p => ('"' :: p.1, p.2))
    | '\\' :: rest => (parseStrChars rest).map (fun p => ('\\' :: p.1, p.2))
    | '/' :: rest => (parseStrChars rest).map (fun p => ('/' :: p.1, p.2))
    | 'b' :: rest => (parseStrChars rest).map (fun p => ('\x08' :: p.1, p.2))
    | 'f' :: rest => (parseStrChars rest).map (fun p => ('\x0c' :: p.1, p.2))
    | 'n' :: rest => (parseStrChars rest).map (fun p => ('\n' :: p.1, p.2))
    | 'r' :: rest => (parseStrChars rest).map (fun p => ('\r' :: p.1, p.2))
    | 't' :: rest => (parseStrChars rest).map (fun p => ('\t' :: p.1, p.2))
    | 'u' :: a :: b :: c :: d :: rest =>
      match hexVal a, hexVal b, hexVal c, hexVal d with
      | some ha, some hb, some hc, some hd =>
        (parseStrChars rest).map
          (fun p => (Char.ofNat (((ha * 16 + hb) * 16 + hc) * 16 + hd) :: p.1, p.2))
      | _, _, _, _ => none
    | _ => none
  | c :: rest =>
    if c.toNat < 32 then none
    else (parseStrChars rest).map (fun p => (c :: p.1, p.2))

/-- Take a maximal run of decimal digits. -/
def takeDigits : List Char → (List Nat × List Char)
  | [] => ([], [])
  | c :: cs =>
    if '0' ≤ c ∧ c ≤ '9' then
      let p := takeDigits cs
      ((c.toNat - '0'.toNat) :: p.1, p.2)
    else ([], c :: cs)

/-- Decimal digits to a natural number. -/
def digitsToNat (ds : List Nat) : Nat :=
  ds.foldl (fun acc d => acc * 10 + d) 0

/-- Parse a JSON number (sign, integer part without leading zeros,
optional fraction, optional exponent) into an exact mantissa/exponent
pair: the digits of the integer and fractional part form the mantissa
and the exponent is adjusted by the fraction length. -/
def parseNumber (cs : List Char) : Option ((Int × Int) × List Char) :=
  let (neg, cs1) := match cs with
    | '-' :: rest => (true, rest)
    | _ => (false, cs)
  let (ids, cs2) := takeDigits cs1
  if ids = [] then none
  else if ids.length > 1 ∧ ids.headI = 0 then none
  else
    let (fds, cs3) := match cs2 with
      | '.' :: rest => takeDigits rest
      | _ => ([], cs2)
    if cs2 ≠ cs3 ∧ fds = [] then none
    else
      let expPart : Option (Int × List Char) := match cs3 with
        | 'e' :: rest | 'E' :: rest =>
          let (esign, rest1) : (Int × List Char) := match rest with
            | '+' :: r => (1, r)
            | '-' :: r => (-1, r)
            | _ => (1, rest)
          let (eds, rest2) := takeDigits rest1
          if eds = [] then none else some (esign * (digitsToNat eds : Int), rest2)
        | _ => some (0, cs3)
      match expPart with
      | none => none
      | some (e, cs4) =>
        let mant : Int := (digitsToNat (ids ++ fds) : Int)
        let signed : Int := if neg then -mant else mant
        some ((signed, e - (fds.length : Int)), cs4)

mutual

/-- Parse one JSON value, fuel-bounded recursive descent. -/
def parseVal : Nat → List Char → Option (JsonValue × List Char)
  | 0, _ => none
  | fuel + 1, cs =>
    match skipWs cs with
    | 'n' :: 'u' :: 'l' :: 'l' :: rest => some (.null, rest)
    | 't' :: 'r' :: 'u' :: 'e' :: rest => some (.bool true, rest)
    | 'f' :: 'a' :: 'l' :: 's' :: 'e' :: rest => some (.bool false, rest)
    | '"' :: rest =>
      match parseStrChars rest with
      | some (chars, rest2) => some (.str (String.mk chars), rest2)
      | none => none
    | '[' :: rest =>
      match skipWs rest with
      | ']' :: rest2 => some (.arr [], rest2)
      | rest2 => parseItems fuel rest2
    | '{' :: rest =>
      match skipWs rest with
      | '}' :: rest2 => some (.obj [], rest2)
      | rest2 => parseFields fuel rest2 []
    | cs2 =>
      match parseNumber cs2 with
      | some ((mant, exp10), rest) => some (.num mant exp10, rest)
      | none => none

/-- Parse the comma-separated items of a non-empty JSON array, up to and
including the closing bracket. -/
def parseItems : Nat → List Char → Option (JsonValue × List Char)
  | 0, _ => none
  | fuel + 1, cs =>
    match parseVal fuel cs with
    | none => none
    | some (v, rest) =>
      match skipWs rest with
      | ',' :: rest2 =>
        match parseItems fuel rest2 with
        | some (.arr vs, rest3) => some (.arr (v :: vs), rest3)
        | _ => none
      | ']' :: rest2 => some (.arr [v], rest2)
      | _ => none

/-- Parse the members of a non-empty JSON object, up to and including the
closing brace, accumulating into a Python-`dict`-like association list. -/
def parseFields : Nat → List Char → List (String × JsonValue) → Option (JsonValue × List Char)
  | 0, _, _ => none
  | fuel + 1, cs, acc =>
    match skipWs cs with
    | '"' :: rest =>
      match parseStrChars rest with
      | none => none
      | some (kchars, rest2) =>
        match skipWs rest2 with
        | ':' :: rest3 =>
          match parseVal fuel rest3 with
          | none => none
          | some (v, rest4) =>
            match skipWs rest4 with
            | ',' :: rest5 => parseFields fuel rest5 (objInsert acc (String.mk kchars) v)
            | '}' :: rest5 => some (.obj (objInsert acc (String.mk kchars) v), rest5)
            | _ => none
        | _ => none
    | _ => none

end

/-- `json.loads`: parse a complete JSON document, rejecting trailing
garbage.  `none` models a raised `JSONDecodeError`. -/
def parseJson (s : String) : Option JsonValue :=
  match parseVal (s.length + 2) s.data with
  | some (v, rest) => if skipWs rest = [] then some v else none
  | none => none

/-! ### Python dynamic semantics on parsed JSON values

The source applies Python operations to the value returned by
`response.json()`.  Each operation below returns `none` exactly when the
Python operation raises (`TypeError`, `KeyError`, `IndexError`,
`AttributeError`); such an exception is caught by the source's final
`except Exception` arm. -/

/-- Python truthiness of a `json.loads` result. -/
def pyTruthy : JsonValue → Bool
  | .null => false
  | .bool b => b
  | .num mant _ => decide (mant ≠ 0)
  | .str s => !s.isEmpty
  | .arr items => !items.isEmpty
  | .obj fields => !fields.isEmpty

/-- Python `==` between a `str` on the left and a `json.loads` value on
the right: true only for an equal string. -/
def pyStrEq (key : String) : JsonValue → Bool
  | .str s => key == s
  | _ => false

/-- Is `needle` an initial segment of `hay`? -/
def charsLead : List Char → List Char → Bool
  | [], _ => true
  | _ :: _, [] => false
  | a :: as, b :: bs => a == b && charsLead as bs

/-- Does `needle` occur contiguously inside `hay`? -/
def charsWithin (needle : List Char) : List Char → Bool
  | [] => charsLead needle []
  | c :: cs => charsLead needle (c :: cs) || charsWithin needle cs

/-- Python `key in s` for strings: substring occurrence. -/
def strWithin (needle hay : String) : Bool :=
  charsWithin needle.data hay.data

/-- Python `key in x` for a `str` key: key membership for a dict,
element equality for a list, substring test for a str; `TypeError`
(`none`) for `None`, booleans and numbers. -/
def pyContains (x : JsonValue) (key : String) : Option Bool :=
  match x with
  | .obj fields => some (objLookup fields key).isSome
  | .arr items => some (items.any (pyStrEq key))
  | .str s => some (strWithin key s)
  | _ => none

/-- Python `x[key]` for a `str` key: dict lookup (`KeyError` when the key
is absent); `TypeError` for every other value. -/
def pySubscript (x : JsonValue) (key : String) : Option JsonValue :=
  match x with
  | .obj fields => objLookup fields key
  | _ => none

/-- Python `len(x)`: defined for lists, strings and dicts; `TypeError`
otherwise. -/
def pyLen (x : JsonValue) : Option Nat :=
  match x with
  | .arr items => some items.length
  | .str s => some s.length
  | .obj fields => some fields.length
  | _ => none

/-- Python `x[0]`: first element of a list (`IndexError` when empty),
first character of a str; `KeyError` for a `json.loads` dict (its keys
are strings, never `0`); `TypeError` otherwise. -/
def pyIndexZero (x : JsonValue) : Option JsonValue :=
  match x with
  | .arr (v :: _) => some v
  | .arr [] => none
  | .str s =>
    match s.data with
    | c :: _ => some (.str (String.mk [c]))
    | [] => none
  | _ => none

/-- Python `x.get(key, default)` with a string default: defined only on a
dict (`AttributeError` otherwise). -/
def pyDictGet (x : JsonValue) (key : String) (dflt : String) : Option JsonValue :=
  match x with
  | .obj fields => some ((objLookup fields key).getD (.str dflt))
  | _ => none

/-! ### The AI client (`get_granite_response` in `app.py`) -/

/-- The two environment values read at startup (`os.getenv` yields `none`
when the variable is absent). -/
structure Config where
  ibm_api_key : Option String
  ibm_project_id : Option String

/-- Python truthiness of an `os.getenv` result: `None` and `""` are
falsy. -/
def envTruthy : Option String → Bool
  | none => false
  | some s => !s.isEmpty

/-- The fixed watsonx.ai endpoint URL from the source. -/
def API_URL : String :=
  "https://us-south.ml.cloud.ibm.com/ml/v1-beta/generation/text?version=2023-05-29"

/-- The fixed model identifier from the source. -/
def MODEL_ID : String := "ibm/granite-13b-instruct-v2"

/-- The HTTP request that `requests.post` is invoked with: URL, headers,
JSON payload and the timeout keyword (in seconds). -/
structure HttpRequest where
  url : String
  headers : List (String × String)
  body : JsonValue
  timeoutSeconds : Nat

/-- The headers dict built by the source. -/
def buildHeaders (api_key project_id : String) : List (String × String) :=
  [("Authorization", "Bearer " ++ api_key),
   ("Content-Type", "application/json"),
   ("Accept", "application/json"),
   ("ibm-metrics-api-token", api_key),
   ("ML-Instance-ID", project_id)]

/-- The JSON payload built by the source. -/
def buildPayload (project_id prompt_text : String) : JsonValue :=
  .obj [("model_id", .str MODEL_ID),
        ("input", .str prompt_text),
        ("parameters",
          .obj [("decoding_method", .str "greedy"),
                ("max_new_tokens", .num 500),
                ("min_new_tokens", .num 50),
                ("repetition_penalty", .num 11 (-1))]),
        ("project_id", .str project_id)]

/-- The full request passed to `requests.post` (line 71 of `app.py`). -/
def buildRequest (api_key project_id prompt_text : String) : HttpRequest :=
  { url := API_URL,
    headers := buildHeaders api_key project_id,
    body := buildPayload project_id prompt_text,
    timeoutSeconds := 60 }

/-- What the transport (`requests.post` plus `raise_for_status` /
`.json()` exception sources) can deliver: the enumerated
`requests.exceptions` arms, a response with a status code and raw body
text, or any other unexpected fault (caught by `except Exception`). -/
inductive HttpResult where
  | timeout
  | connectionError
  | response (status : Nat) (body : String)
  | otherFault (msg : String)

/-- Message returned when credentials are missing (line 40). -/
def configErrorMsg : String := "Error: IBM API Key or Project ID is not configured."

/-- Message returned on `requests.exceptions.Timeout` (line 87). -/
def timeoutMsg : String := "The AI took too long to respond. Please try again."

/-- Message returned on `requests.exceptions.ConnectionError` (line 90). -/
def connectionMsg : String :=
  "Could not connect to the AI service. Please check your network connection."

/-- Message returned on `requests.exceptions.HTTPError` (line 93). -/
def httpErrorMsg (status : Nat) : String :=
  "An API error occurred: " ++ toString status ++ ". Please check your credentials or API usage."

/-- Message returned on `json.JSONDecodeError` (line 96). -/
def unreadableMsg : String := "Received an unreadable response from the AI service."

/-- Message returned when the parsed body fails the shape check (line 83). -/
def unexpectedFormatMsg : String :=
  "An unexpected response format was received from the AI."

/-- Message returned by the final `except Exception` arm (line 100). -/
def internalErrorMsg : String :=
  "An internal error occurred while processing your request with the AI."

/-- Default supplied to `.get("generated_text", ...)` (line 80). -/
def noTextMsg : String := "No text generated."

/-- `raise_for_status` raises `HTTPError` exactly for 4xx and 5xx
statuses. -/
def isErrorStatus (status : Nat) : Bool :=
  400 ≤ status && status < 600

/-- Result of running lines 79–83 on the parsed response body:
either the returned value, the `else`-branch (unexpected format), or an
exception reaching the `except Exception` arm. -/
inductive ProcResult where
  | ok (v : JsonValue)
  | unexpectedShape
  | pyFault

/-- Lines 79–83 of `app.py`:
`if response_data and "results" in response_data and
len(response_data["results"]) > 0: return
response_data["results"][0].get("generated_text", "No text generated.")
else: ...`, with every Python exception surfaced as `pyFault`. -/
def checkAndExtract (data : JsonValue) : ProcResult :=
  if pyTruthy data then
    match pyContains data "results" with
    | none => .pyFault
    | some false => .unexpectedShape
    | some true =>
      match pySubscript data "results" with
      | none => .pyFault
      | some results =>
        match pyLen results with
        | none => .pyFault
        | some n =>
          if 0 < n then
            match pyIndexZero results with
            | none => .pyFault
            | some first =>
              match pyDictGet first "generated_text" noTextMsg with
              | none => .pyFault
              | some v => .ok v
          else .unexpectedShape
  else .unexpectedShape

/-- The AI client, `get_granite_response` (lines 34–100 of `app.py`),
with the transport abstracted as a function from the built request to an
`HttpResult`.  The return value is the Python return value: a string on
every path except the happy path, where Python returns whatever
`results[0].get("generated_text", ...)` evaluates to. -/
def get_granite_response (cfg : Config) (transport : HttpRequest → HttpResult)
    (prompt_text : String) : JsonValue :=
  if !envTruthy cfg.ibm_api_key || !envTruthy cfg.ibm_project_id then
    .str configErrorMsg
  else
    match transport (buildRequest (cfg.ibm_api_key.getD "") (cfg.ibm_project_id.getD "")
        prompt_text) with
    | .timeout => .str timeoutMsg
    | .connectionError => .str connectionMsg
    | .otherFault _ => .str internalErrorMsg
    | .response status body =>
      if isErrorStatus status then .str (httpErrorMsg status)
      else
        match parseJson body with
        | none => .str unreadableMsg
        | some data =>
          match checkAndExtract data with
          | .ok v => v
          | .unexpectedShape => .str unexpectedFormatMsg
          | .pyFault => .str internalErrorMsg

/-! ### The specification-level outcome abstraction -/

/-- The error taxonomy of the specification (§7). -/
inductive ErrorKind where
  | ConfigurationMissing
  | Timeout
  | Unreachable
  | RemoteError
  | MalformedResponse
  | UnexpectedShape
  | Internal
deriving DecidableEq

/-- `GenerationOutcome` (spec §3): a tagged variant, exactly one of
`success` (carrying the returned generation value) or `failure`
(carrying an `ErrorKind` and a diagnostic detail). -/
inductive GenerationOutcome where
  | success (text : JsonValue)
  | failure (kind : ErrorKind) (detail : String)

/-- Classification of a `get_granite_response` run as a
`GenerationOutcome`: the same decision tree as the source, with each
return site tagged by the spec's `ErrorKind`. -/
def outcomeOf (cfg : Config) (transport : HttpRequest → HttpResult)
    (prompt_text : String) : GenerationOutcome :=
  if !envTruthy cfg.ibm_api_key || !envTruthy cfg.ibm_project_id then
    .failure .ConfigurationMissing configErrorMsg
  else
    match transport (buildRequest (cfg.ibm_api_key.getD "") (cfg.ibm_project_id.getD "")
        prompt_text) with
    | .timeout => .failure .Timeout timeoutMsg
    | .connectionError => .failure .Unreachable connectionMsg
    | .otherFault _ => .failure .Internal internalErrorMsg
    | .response status body =>
      if isErrorStatus status then .failure .RemoteError (httpErrorMsg status)
      else
        match parseJson body with
        | none => .failure .MalformedResponse unreadableMsg
        | some data =>
          match checkAndExtract data with
          | .ok v => .success v
          | .unexpectedShape => .failure .UnexpectedShape unexpectedFormatMsg
          | .pyFault => .failure .Internal internalErrorMsg

/-- The value the Python function returns for a given outcome: the
carried value on success, the diagnostic string on failure. -/
def render : GenerationOutcome → JsonValue
  | .success v => v
  | .failure _ detail => .str detail

/-! ### Helper lemmas -/

/-- The string returned by the source is the rendering of its outcome
classification: the two definitions walk the same decision tree. -/
theorem generate_refines (cfg : Config) (transport : HttpRequest → HttpResult)
    (p : String) :
    get_granite_response cfg transport p = render (outcomeOf cfg transport p) := by
  unfold get_granite_response outcomeOf
  repeat' split
  all_goals rfl

/-- A lookup hit forces the association list to be non-empty. -/
theorem objLookup_ne_nil {fs : List (String × JsonValue)} {key : String}
    {v : JsonValue} (h : objLookup fs key = some v) : fs ≠ [] := by
  intro hnil
  subst hnil
  simp [objLookup] at h

/-- Lines 79–80 on an object whose `results` entry is a non-empty array
headed by an object: the run reaches `.get("generated_text", ...)` and
returns its result. -/
theorem checkAndExtract_first_obj (fs x : List (String × JsonValue))
    (rest : List JsonValue)
    (hres : objLookup fs "results" = some (.arr (JsonValue.obj x :: rest))) :
    checkAndExtract (.obj fs) =
      .ok ((objLookup x "generated_text").getD (.str noTextMsg)) := by
  have hfs : fs ≠ [] := objLookup_ne_nil hres
  unfold checkAndExtract
  simp [pyTruthy, List.isEmpty_iff, hfs, pyContains, hres, pySubscript, pyLen,
    pyIndexZero, pyDictGet]

/-- Lines 79–83 on an object with no `results` entry, or whose `results`
entry is an empty array: the `else` branch is taken. -/
theorem checkAndExtract_shape (fs : List (String × JsonValue))
    (hres : objLookup fs "results" = none ∨
      objLookup fs "results" = some (.arr [])) :
    checkAndExtract (.obj fs) = .unexpectedShape := by
  rcases hres with hres | hres
  · rcases hfs : fs.isEmpty with _ | _
    · unfold checkAndExtract
      simp [pyTruthy, hfs, pyContains, hres]
    · unfold checkAndExtract
      simp [pyTruthy, hfs]
  · have hfs : fs ≠ [] := objLookup_ne_nil hres
    unfold checkAndExtract
    simp [pyTruthy, List.isEmpty_iff, hfs, pyContains, hres, pySubscript, pyLen]

/-! ### The claims -/

/-- C1: for every request, if the API key or the project id credential is
empty or absent, `get_granite_response` returns the ConfigurationMissing
failure outcome, and the transport is never consulted (no network I/O):
the result is the same for every transport. -/
theorem C1_configuration_guard (cfg : Config) (p : String)
    (h : envTruthy cfg.ibm_api_key = false ∨ envTruthy cfg.ibm_project_id = false) :
    (∀ transport, outcomeOf cfg transport p =
      .failure .ConfigurationMissing configErrorMsg) ∧
    (∀ transport, get_granite_response cfg transport p = .str configErrorMsg) ∧
    (∀ t1 t2 : HttpRequest → HttpResult,
      get_granite_response cfg t1 p = get_granite_response cfg t2 p) := by
  have hcond : (!envTruthy cfg.ibm_api_key || !envTruthy cfg.ibm_project_id) = true := by
    rcases h with h | h <;> simp [h]
  refine ⟨fun transport => ?_, fun transport => ?_, fun t1 t2 => ?_⟩
  · unfold outcomeOf
    simp [hcond]
  · unfold get_granite_response
    simp [hcond]
  · unfold get_granite_response
    simp [hcond]

/-- Witness for C1 at concrete inputs: an empty API key, two different
transports. -/
theorem C1_configuration_guard_witness :
    (envTruthy (some "") = false ∨ envTruthy (some "proj") = false) ∧
    outcomeOf ⟨some "", some "proj"⟩ (fun _ => .timeout) "q" =
      .failure .ConfigurationMissing configErrorMsg ∧
    get_granite_response ⟨some "", some "proj"⟩ (fun _ => .timeout) "q" =
      get_granite_response ⟨some "", some "proj"⟩ (fun _ => .response 200 "x") "q" := by
  refine ⟨Or.inl rfl, ?_, ?_⟩
  · exact (C1_configuration_guard ⟨some "", some "proj"⟩ "q" (Or.inl rfl)).1 _
  · exact (C1_configuration_guard ⟨some "", some "proj"⟩ "q" (Or.inl rfl)).2.2 _ _

/-- C2: with valid credentials and a non-error response whose body parses
to an object whose `results` entry is a non-empty array headed by an
object carrying a string `generated_text`, the client returns exactly
that string as a success. -/
theorem C2_success_extraction (cfg : Config) (p : String) (status : Nat)
    (body : String) (fs x : List (String × JsonValue)) (rest : List JsonValue)
    (s : String)
    (hkey : envTruthy cfg.ibm_api_key = true)
    (hpid : envTruthy cfg.ibm_project_id = true)
    (hstatus : isErrorStatus status = false)
    (hparse : parseJson body = some (.obj fs))
    (hres : objLookup fs "results" = some (.arr (JsonValue.obj x :: rest)))
    (htext : objLookup x "generated_text" = some (.str s)) :
    outcomeOf cfg (fun _ => .response status body) p = .success (.str s) ∧
    get_granite_response cfg (fun _ => .response status body) p = .str s := by
  have hce : checkAndExtract (.obj fs) = .ok (.str s) := by
    rw [checkAndExtract_first_obj fs x rest hres, htext]
    rfl
  have houtcome : outcomeOf cfg (fun _ => .response status body) p = .success (.str s) := by
    unfold outcomeOf
    simp [hkey, hpid, hstatus, hparse, hce]
  exact ⟨houtcome, by rw [generate_refines, houtcome]; rfl⟩

/-- Witness for C2: the stubbed body from the spec's P4 yields
`Success{text:"Take two aspirin"}`. -/
theorem C2_success_extraction_witness :
    parseJson "\x7b\"results\":[\x7b\"generated_text\":\"Take two aspirin\"\x7d]\x7d" =
      some (.obj [("results",
        .arr [.obj [("generated_text", .str "Take two aspirin")]])]) ∧
    outcomeOf ⟨some "k", some "p"⟩
      (fun _ => .response 200 "\x7b\"results\":[\x7b\"generated_text\":\"Take two aspirin\"\x7d]\x7d")
      "q" = .success (.str "Take two aspirin") ∧
    get_granite_response ⟨some "k", some "p"⟩
      (fun _ => .response 200 "\x7b\"results\":[\x7b\"generated_text\":\"Take two aspirin\"\x7d]\x7d")
      "q" = .str "Take two aspirin" := by
  refine ⟨rfl, ?_, ?_⟩
  · exact (C2_success_extraction ⟨some "k", some "p"⟩ "q" 200
      "\x7b\"results\":[\x7b\"generated_text\":\"Take two aspirin\"\x7d]\x7d"
      [("results", .arr [.obj [("generated_text", .str "Take two aspirin")]])]
      [("generated_text", .str "Take two aspirin")] [] "Take two aspirin"
      rfl rfl rfl rfl rfl rfl).1
  · exact (C2_success_extraction ⟨some "k", some "p"⟩ "q" 200
      "\x7b\"results\":[\x7b\"generated_text\":\"Take two aspirin\"\x7d]\x7d"
      [("results", .arr [.obj [("generated_text", .str "Take two aspirin")]])]
      [("generated_text", .str "Take two aspirin")] [] "Take two aspirin"
      rfl rfl rfl rfl rfl rfl).2

/-- C3: every invocation is classified by a `GenerationOutcome` that is a
tagged variant — exactly one of `success`/`failure` — whose rendering is
precisely the value the source returns, so callers receive a normalized
value and never a raw transport exception. -/
theorem C3_tagged_outcome (cfg : Config) (transport : HttpRequest → HttpResult)
    (p : String) :
    get_granite_response cfg transport p = render (outcomeOf cfg transport p) ∧
    ((∃ v, outcomeOf cfg transport p = .success v) ∨
      (∃ k d, outcomeOf cfg transport p = .failure k d)) ∧
    (∀ v k d, outcomeOf cfg transport p = .success v →
      outcomeOf cfg transport p = .failure k d → False) := by
  refine ⟨generate_refines cfg transport p, ?_, ?_⟩
  · cases h : outcomeOf cfg transport p with
    | success v => exact Or.inl ⟨v, rfl⟩
    | failure k d => exact Or.inr ⟨k, d, rfl⟩
  · intro v k d h1 h2
    rw [h1] at h2
    cases h2

/-- C4: the client is total over its failure modes: every run renders
some outcome, and a transport fault outside the enumerated taxonomy
(the `except Exception` arm) is mapped to an Internal failure rather
than escaping. -/
theorem C4_total_absorption (cfg : Config) (p msg : String)
    (hkey : envTruthy cfg.ibm_api_key = true)
    (hpid : envTruthy cfg.ibm_project_id = true) :
    outcomeOf cfg (fun _ => .otherFault msg) p = .failure .Internal internalErrorMsg ∧
    get_granite_response cfg (fun _ => .otherFault msg) p = .str internalErrorMsg ∧
    (∀ transport, get_granite_response cfg transport p =
      render (outcomeOf cfg transport p)) := by
  have houtcome : outcomeOf cfg (fun _ => .otherFault msg) p =
      .failure .Internal internalErrorMsg := by
    unfold outcomeOf
    simp [hkey, hpid]
  exact ⟨houtcome, by rw [generate_refines, houtcome]; rfl,
    fun transport => generate_refines cfg transport p⟩

/-- Witness for C4 at concrete inputs: an unclassified transport fault is
absorbed as an Internal failure. -/
theorem C4_total_absorption_witness :
    envTruthy (some "k") = true ∧
    outcomeOf ⟨some "k", some "p"⟩ (fun _ => .otherFault "boom") "q" =
      .failure .Internal internalErrorMsg ∧
    get_granite_response ⟨some "k", some "p"⟩ (fun _ => .otherFault "boom") "q" =
      .str internalErrorMsg := by
  refine ⟨rfl, ?_, ?_⟩
  · exact (C4_total_absorption ⟨some "k", some "p"⟩ "q" "boom" rfl rfl).1
  · exact (C4_total_absorption ⟨some "k", some "p"⟩ "q" "boom" rfl rfl).2.1

/-- C5: with valid credentials the transport call is issued with a
60-second bound, and a transport wait that exceeds the bound yields the
Timeout failure outcome. -/
theorem C5_timeout_bound (cfg : Config) (p : String)
    (hkey : envTruthy cfg.ibm_api_key = true)
    (hpid : envTruthy cfg.ibm_project_id = true) :
    (buildRequest (cfg.ibm_api_key.getD "") (cfg.ibm_project_id.getD "")
      p).timeoutSeconds = 60 ∧
    outcomeOf cfg (fun _ => .timeout) p = .failure .Timeout timeoutMsg ∧
    get_granite_response cfg (fun _ => .timeout) p = .str timeoutMsg := by
  have houtcome : outcomeOf cfg (fun _ => .timeout) p = .failure .Timeout timeoutMsg := by
    unfold outcomeOf
    simp [hkey, hpid]
  exact ⟨rfl, houtcome, by rw [generate_refines, houtcome]; rfl⟩

/-- Witness for C5 at concrete inputs. -/
theorem C5_timeout_bound_witness :
    (buildRequest "k" "p" "q").timeoutSeconds = 60 ∧
    outcomeOf ⟨some "k", some "p"⟩ (fun _ => .timeout) "q" =
      .failure .Timeout timeoutMsg ∧
    get_granite_response ⟨some "k", some "p"⟩ (fun _ => .timeout) "q" =
      .str timeoutMsg := by
  refine ⟨?_, ?_, ?_⟩
  · exact (C5_timeout_bound ⟨some "k", some "p"⟩ "q" rfl rfl).1
  · exact (C5_timeout_bound ⟨some "k", some "p"⟩ "q" rfl rfl).2.1
  · exact (C5_timeout_bound ⟨some "k", some "p"⟩ "q" rfl rfl).2.2

/-- C6: a response status in the 4xx/5xx range yields the RemoteError
failure whose detail embeds the status code, for any body whatsoever —
the status check precedes body parsing. -/
theorem C6_remote_error (cfg : Config) (p : String) (status : Nat) (body : String)
    (hkey : envTruthy cfg.ibm_api_key = true)
    (hpid : envTruthy cfg.ibm_project_id = true)
    (hstatus : isErrorStatus status = true) :
    outcomeOf cfg (fun _ => .response status body) p =
      .failure .RemoteError (httpErrorMsg status) ∧
    (∃ a b, httpErrorMsg status = a ++ toString status ++ b) ∧
    get_granite_response cfg (fun _ => .response status body) p =
      .str (httpErrorMsg status) := by
  have houtcome : outcomeOf cfg (fun _ => .response status body) p =
      .failure .RemoteError (httpErrorMsg status) := by
    unfold outcomeOf
    simp [hkey, hpid, hstatus]
  exact ⟨houtcome,
    ⟨"An API error occurred: ", ". Please check your credentials or API usage.", rfl⟩,
    by rw [generate_refines, houtcome]; rfl⟩

/-- Witness for C6: a stubbed HTTP 500 with an unparseable body yields a
RemoteError whose detail contains `"500"`. -/
theorem C6_remote_error_witness :
    isErrorStatus 500 = true ∧
    outcomeOf ⟨some "k", some "p"⟩ (fun _ => .response 500 "<html>error</html>") "q" =
      .failure .RemoteError (httpErrorMsg 500) ∧
    (∃ a b, httpErrorMsg 500 = a ++ "500" ++ b) ∧
    get_granite_response ⟨some "k", some "p"⟩
      (fun _ => .response 500 "<html>error</html>") "q" = .str (httpErrorMsg 500) := by
  refine ⟨rfl, ?_, ?_, ?_⟩
  · exact (C6_remote_error ⟨some "k", some "p"⟩ "q" 500 "<html>error</html>"
      rfl rfl rfl).1
  · exact (C6_remote_error ⟨some "k", some "p"⟩ "q" 500 "<html>error</html>"
      rfl rfl rfl).2.1
  · exact (C6_remote_error ⟨some "k", some "p"⟩ "q" 500 "<html>error</html>"
      rfl rfl rfl).2.2

/-- C7: a non-error response whose body is not parseable as JSON yields
the MalformedResponse failure outcome. -/
theorem C7_malformed_response (cfg : Config) (p : String) (status : Nat)
    (body : String)
    (hkey : envTruthy cfg.ibm_api_key = true)
    (hpid : envTruthy cfg.ibm_project_id = true)
    (hstatus : isErrorStatus status = false)
    (hparse : parseJson body = none) :
    outcomeOf cfg (fun _ => .response status body) p =
      .failure .MalformedResponse unreadableMsg ∧
    get_granite_response cfg (fun _ => .response status body) p =
      .str unreadableMsg := by
  have houtcome : outcomeOf cfg (fun _ => .response status body) p =
      .failure .MalformedResponse unreadableMsg := by
    unfold outcomeOf
    simp [hkey, hpid, hstatus, hparse]
  exact ⟨houtcome, by rw [generate_refines, houtcome]; rfl⟩

/-- Witness for C7: the non-JSON body `"<html>error</html>"` on a 200
response yields MalformedResponse. -/
theorem C7_malformed_response_witness :
    parseJson "<html>error</html>" = none ∧
    outcomeOf ⟨some "k", some "p"⟩ (fun _ => .response 200 "<html>error</html>") "q" =
      .failure .MalformedResponse unreadableMsg ∧
    get_granite_response ⟨some "k", some "p"⟩
      (fun _ => .response 200 "<html>error</html>") "q" = .str unreadableMsg := by
  refine ⟨rfl, ?_, ?_⟩
  · exact (C7_malformed_response ⟨some "k", some "p"⟩ "q" 200 "<html>error</html>"
      rfl rfl rfl rfl).1
  · exact (C7_malformed_response ⟨some "k", some "p"⟩ "q" 200 "<html>error</html>"
      rfl rfl rfl rfl).2

/-- C8 counterexample: the body `"5"` is parseable JSON in which the
`results` field is absent (the value is not even subscriptable), yet the
run ends in the `except Exception` arm — an Internal failure, not
UnexpectedShape — because `"results" in 5` raises `TypeError`. -/
theorem C8_counterexample :
    parseJson "5" = some (.num 5) ∧
    pySubscript (.num 5) "results" = none ∧
    pyContains (.num 5) "results" = none ∧
    outcomeOf ⟨some "k", some "p"⟩ (fun _ => .response 200 "5") "q" =
      .failure .Internal internalErrorMsg ∧
    ErrorKind.Internal ≠ ErrorKind.UnexpectedShape := by
  refine ⟨rfl, rfl, rfl, ?_, by decide⟩
  unfold outcomeOf
  simp [checkAndExtract, pyTruthy, pyContains]
  rfl

/-- C8 (amended): with valid credentials and a non-error response whose
body parses to a JSON object that has no `results` entry, or whose
`results` entry is an empty array, the client returns the
UnexpectedShape failure outcome.  (A parseable body that is a bare
truthy scalar, such as `5`, instead raises inside the shape check and is
absorbed as Internal.) -/
theorem C8_unexpected_shape (cfg : Config) (p : String) (status : Nat)
    (body : String) (fs : List (String × JsonValue))
    (hkey : envTruthy cfg.ibm_api_key = true)
    (hpid : envTruthy cfg.ibm_project_id = true)
    (hstatus : isErrorStatus status = false)
    (hparse : parseJson body = some (.obj fs))
    (hres : objLookup fs "results" = none ∨
      objLookup fs "results" = some (.arr [])) :
    outcomeOf cfg (fun _ => .response status body) p =
      .failure .UnexpectedShape unexpectedFormatMsg ∧
    get_granite_response cfg (fun _ => .response status body) p =
      .str unexpectedFormatMsg := by
  have hce := checkAndExtract_shape fs hres
  have houtcome : outcomeOf cfg (fun _ => .response status body) p =
      .failure .UnexpectedShape unexpectedFormatMsg := by
    unfold outcomeOf
    simp [hkey, hpid, hstatus, hparse, hce]
  exact ⟨houtcome, by rw [generate_refines, houtcome]; rfl⟩

/-- Witness for the amended C8: the stubbed body `{"results":[]}` yields
UnexpectedShape. -/
theorem C8_unexpected_shape_witness :
    parseJson "\x7b\"results\":[]\x7d" = some (.obj [("results", .arr [])]) ∧
    outcomeOf ⟨some "k", some "p"⟩ (fun _ => .response 200 "\x7b\"results\":[]\x7d") "q" =
      .failure .UnexpectedShape unexpectedFormatMsg ∧
    get_granite_response ⟨some "k", some "p"⟩
      (fun _ => .response 200 "\x7b\"results\":[]\x7d") "q" = .str unexpectedFormatMsg := by
  refine ⟨rfl, ?_, ?_⟩
  · exact (C8_unexpected_shape ⟨some "k", some "p"⟩ "q" 200 "\x7b\"results\":[]\x7d"
      [("results", .arr [])] rfl rfl rfl rfl (Or.inr rfl)).1
  · exact (C8_unexpected_shape ⟨some "k", some "p"⟩ "q" 200 "\x7b\"results\":[]\x7d"
      [("results", .arr [])] rfl rfl rfl rfl (Or.inr rfl)).2

/-- C9: the outbound request carries exactly the fields `model_id`,
`input` (the prompt), a `parameters` sub-object of decoding method,
min/max new tokens (with min ≤ max) and repetition penalty, and
`project_id`, at the fixed URL; and the client consults the transport
only at that built request. -/
theorem C9_request_payload (k pid p : String) :
    (buildRequest k pid p).url = API_URL ∧
    (∃ fields, (buildRequest k pid p).body = .obj fields ∧
      fields.map Prod.fst = ["model_id", "input", "parameters", "project_id"] ∧
      objLookup fields "model_id" = some (.str MODEL_ID) ∧
      objLookup fields "input" = some (.str p) ∧
      objLookup fields "project_id" = some (.str pid) ∧
      (∃ ps, objLookup fields "parameters" = some (.obj ps) ∧
        ps.map Prod.fst =
          ["decoding_method", "max_new_tokens", "min_new_tokens",
            "repetition_penalty"] ∧
        objLookup ps "decoding_method" = some (.str "greedy") ∧
        objLookup ps "repetition_penalty" = some (.num 11 (-1)) ∧
        (∃ mn mx : Int, objLookup ps "min_new_tokens" = some (.num mn) ∧
          objLookup ps "max_new_tokens" = some (.num mx) ∧ mn ≤ mx))) ∧
    (∀ (cfg : Config) (t1 t2 : HttpRequest → HttpResult),
      cfg.ibm_api_key.getD "" = k → cfg.ibm_project_id.getD "" = pid →
      t1 (buildRequest k pid p) = t2 (buildRequest k pid p) →
      get_granite_response cfg t1 p = get_granite_response cfg t2 p) := by
  refine ⟨rfl, ⟨_, rfl, rfl, rfl, rfl, rfl, ⟨_, rfl, rfl, rfl, rfl,
    ⟨50, 500, rfl, rfl, by norm_num⟩⟩⟩, ?_⟩
  intro cfg t1 t2 hk hp hagree
  unfold get_granite_response
  rw [hk, hp, hagree]

/-- Witness for C9 at concrete inputs. -/
theorem C9_request_payload_witness :
    (buildRequest "k" "p" "What helps a headache?").url = API_URL ∧
    get_granite_response ⟨some "k", some "p"⟩
        (fun r => if r.url = API_URL then .timeout else .connectionError)
        "What helps a headache?" =
      get_granite_response ⟨some "k", some "p"⟩ (fun _ => .timeout)
        "What helps a headache?" := by
  refine ⟨(C9_request_payload "k" "p" "What helps a headache?").1, ?_⟩
  exact (C9_request_payload "k" "p" "What helps a headache?").2.2
    ⟨some "k", some "p"⟩ _ _ rfl rfl (by rfl)

/-- C10 counterexample: with the parseable body `{"results":[5]}` the
`results` array is non-empty and its first element has no
`generated_text` field, yet the run does not return the success-shaped
default `"No text generated."` — `5 .get(...)` raises `AttributeError`
and the client returns the Internal failure. -/
theorem C10_counterexample :
    parseJson "\x7b\"results\":[5]\x7d" = some (.obj [("results", .arr [.num 5])]) ∧
    pyDictGet (.num 5) "generated_text" noTextMsg = none ∧
    outcomeOf ⟨some "k", some "p"⟩ (fun _ => .response 200 "\x7b\"results\":[5]\x7d") "q" =
      .failure .Internal internalErrorMsg ∧
    get_granite_response ⟨some "k", some "p"⟩
      (fun _ => .response 200 "\x7b\"results\":[5]\x7d") "q" ≠ .str noTextMsg := by
  have houtcome : outcomeOf ⟨some "k", some "p"⟩
      (fun _ => .response 200 "\x7b\"results\":[5]\x7d") "q" =
      .failure .Internal internalErrorMsg := by
    unfold outcomeOf
    simp [checkAndExtract, pyTruthy, pyContains, pySubscript, pyLen, pyIndexZero,
      pyDictGet, objLookup, parseJson]
    rfl
  refine ⟨rfl, rfl, houtcome, ?_⟩
  rw [generate_refines, houtcome]
  intro h
  have : internalErrorMsg = noTextMsg := by
    injection h
  simp [internalErrorMsg, noTextMsg] at this

/-- C10 (amended): when the parseable body's `results` array is
non-empty and its first element is an object lacking a `generated_text`
entry, the client returns the fixed success-shaped string
`"No text generated."` rather than any failure outcome.  (A non-object
first element, such as the number `5`, instead raises at `.get` and is
absorbed as Internal.) -/
theorem C10_no_text_default (cfg : Config) (p : String) (status : Nat)
    (body : String) (fs x : List (String × JsonValue)) (rest : List JsonValue)
    (hkey : envTruthy cfg.ibm_api_key = true)
    (hpid : envTruthy cfg.ibm_project_id = true)
    (hstatus : isErrorStatus status = false)
    (hparse : parseJson body = some (.obj fs))
    (hres : objLookup fs "results" = some (.arr (JsonValue.obj x :: rest)))
    (htext : objLookup x "generated_text" = none) :
    outcomeOf cfg (fun _ => .response status body) p = .success (.str noTextMsg) ∧
    get_granite_response cfg (fun _ => .response status body) p = .str noTextMsg := by
  have hce : checkAndExtract (.obj fs) = .ok (.str noTextMsg) := by
    rw [checkAndExtract_first_obj fs x rest hres, htext]
    rfl
  have houtcome : outcomeOf cfg (fun _ => .response status body) p =
      .success (.str noTextMsg) := by
    unfold outcomeOf
    simp [hkey, hpid, hstatus, hparse, hce]
  exact ⟨houtcome, by rw [generate_refines, houtcome]; rfl⟩

/-- Witness for the amended C10: the body `{"results":[{}]}` yields the
default text. -/
theorem C10_no_text_default_witness :
    parseJson "\x7b\"results\":[\x7b\x7d]\x7d" = some (.obj [("results", .arr [.obj []])]) ∧
    outcomeOf ⟨some "k", some "p"⟩
      (fun _ => .response 200 "\x7b\"results\":[\x7b\x7d]\x7d") "q" =
      .success (.str noTextMsg) ∧
    get_granite_response ⟨some "k", some "p"⟩
      (fun _ => .response 200 "\x7b\"results\":[\x7b\x7d]\x7d") "q" = .str noTextMsg := by
  refine ⟨rfl, ?_, ?_⟩
  · exact (C10_no_text_default ⟨some "k", some "p"⟩ "q" 200 "\x7b\"results\":[\x7b\x7d]\x7d"
      [("results", .arr [.obj []])] [] [] rfl rfl rfl rfl rfl rfl).1
  · exact (C10_no_text_default ⟨some "k", some "p"⟩ "q" 200 "\x7b\"results\":[\x7b\x7d]\x7d"
      [("results", .arr [.obj []])] [] [] rfl rfl rfl rfl rfl rfl).2

end HealthAI
